import Mathlib

/-!
Shallow embedding of the GeoTools repository (src/GeoTools.py and src/GeoPy.py).

External collaborators (the Nominatim geocoding service, `geopandas.read_file`,
the CRS reprojection carried out by `to_crs`, and the folium rendering engine)
are modelled as explicit function parameters or as inert record constructors;
everything the repository's own code does — query construction, the per-record
loop with its catch-all failure handling, the sleep after a successful request,
centerpoint selection, child-attachment order on a folium map, the geoid
assignment, and the argument plumbing into `folium.Choropleth` — is translated
directly from the source.
-/

/-- A Python scalar as it flows through this code: `pynone` is Python `None`,
`nan` is a float NaN (what pandas stores for missing data, e.g. the columns of
a row that came from an empty dict), and `num q` is an ordinary finite number
(exact rational, standing for the float). `None` and NaN are distinct values in
Python — `x == None` is false for NaN — and the model keeps them distinct. -/
inductive PyVal where
  | pynone : PyVal
  | nan : PyVal
  | num : ℚ → PyVal
deriving DecidableEq

/-- One address record: the six text columns `geocoder_nominatim` reads from
its input dataframe (`ObjectName`, `ObjectStreet`, `ObjectNumber`,
`ObjectPostalCode`, `ObjectCity`, `ObjectCountry`). Each may be empty. -/
structure AddressRecord where
  objName : String
  street : String
  number : String
  postalCode : String
  city : String
  country : String
deriving DecidableEq

/-- The free-text query built for one row, GeoTools.py lines 114-126:
`row[ObjectName] + "," + row[ObjectStreet] + " " + row[ObjectNumber] + "," +
row[ObjectPostalCode] + "," + row[ObjectCity] + "," + row[ObjectCountry]`. -/
def buildQuery (row : AddressRecord) : String :=
  row.objName ++ "," ++ row.street ++ " " ++ row.number ++ ","
    ++ row.postalCode ++ "," ++ row.city ++ "," ++ row.country

namespace GeoTools

/-- `GeoTools.geocoder_nominatim`, GeoTools.py lines 74-145.  The external
call `app.geocode(query).raw` together with the bare `except` is modelled by
`geocode : String → Option α`: `some payload` is a successful response (after
which the code sleeps 1 second and appends the payload), `none` is any failure
— no match (`geocode` returned Python `None`, so `.raw` raises), transport
error, malformed response — for which the code appends an empty dict `{}`
(here `Option.none`) and continues with the next row. -/
def geocoder_nominatim {α : Type} (geocode : String → Option α) :
    List AddressRecord → List (Option α)
  | [] => []
  | row :: rest => geocode (buildQuery row) :: geocoder_nominatim geocode rest

/-- An observable event of the geocoding loop: issuing one request to the
external service, or sleeping for a number of seconds. -/
inductive GeoEvent where
  | req : String → GeoEvent
  | sleep : Nat → GeoEvent
deriving DecidableEq

/-- Whether an event is a request. -/
def GeoEvent.isReq : GeoEvent → Bool
  | .req _ => true
  | .sleep _ => false

/-- The event trace of `geocoder_nominatim` on an input dataframe, from the
same loop (GeoTools.py lines 109-143): each row causes exactly one request;
on success `time.sleep(1)` runs immediately after the request returns (line
136); on failure the loop moves straight to the next row. -/
def geocoderTrace {α : Type} (geocode : String → Option α) :
    List AddressRecord → List GeoEvent
  | [] => []
  | row :: rest =>
    match geocode (buildQuery row) with
    | some _ => .req (buildQuery row) :: .sleep 1 :: geocoderTrace geocode rest
    | none => .req (buildQuery row) :: geocoderTrace geocode rest

end GeoTools

/-- A child element attached to a folium map, in attachment order (the order of
the `add_to` calls).  `marker lat lon color icon pathCoords` records one
`folium.Marker` with its `folium.Icon` arguments and the `pathCoords=antpath`
keyword the source passes (GeoTools.py lines 265-270). -/
inductive MapChild where
  | fullscreenCtl : MapChild
  | layerControl : MapChild
  | marker : PyVal → PyVal → String → String → Option String → MapChild
deriving DecidableEq

/-- The state of a `folium.Map` relevant to this code: the constructor
arguments `location`, `tiles`, `zoom_start`, `control_scale`, and the ordered
list of attached children. -/
structure FoliumMap where
  location : PyVal × PyVal
  tiles : String
  zoomStart : Nat
  controlScale : Bool
  children : List MapChild
deriving DecidableEq

/-- One row of the `locations` dataframe handed to `location_markers`: the
values of its latitude and longitude columns.  For a dataframe produced by
`geocoder_nominatim`, a resolved row carries numbers (`num`) and a row that
came from an empty dict carries NaN (`nan`) in every column. -/
structure LocationRow where
  lat : PyVal
  lon : PyVal
deriving DecidableEq

/-- The numeric entries of a pandas column after `pd.to_numeric`: `None`
becomes NaN, NaN stays NaN, and both are skipped by aggregations; only `num`
entries remain. -/
def numericVals (xs : List PyVal) : List ℚ :=
  xs.filterMap fun v => match v with | .num q => some q | _ => none

/-- `pd.to_numeric(column).mean()` as used at GeoTools.py lines 255-256:
`Series.mean` skips NaN entries (pandas default `skipna=True`); the mean of an
empty or all-NaN column is NaN. -/
def toNumericMean (xs : List PyVal) : PyVal :=
  let vals := numericVals xs
  if vals.length = 0 then .nan else .num (vals.sum / (vals.length : ℚ))

namespace GeoTools

/-- `GeoTools.prepare_folium_map`, GeoTools.py lines 147-202.  The centerpoint
test is `centerpoint_lat == None` (line 181), so only Python `None` selects the
default pair.  The map is created, then `Fullscreen` is attached when
`fullscreen` is true (lines 196-197), then `folium.LayerControl` is attached
unconditionally (line 200) — the `layercontrol`, `minimap` and `oms` parameters
are never read by the body.  The source's defaults are `centerpoint_lat=None`,
`centerpoint_lon=None`, `tile_name="openstreetmap"`, `layercontrol=True`,
`fullscreen=True`, `minimap=False`, `oms=False`; the model passes all
arguments explicitly. -/
def prepare_folium_map (centerpoint_lat centerpoint_lon : PyVal)
    (tile_name : String) (layercontrol fullscreen minimap oms : Bool) :
    FoliumMap :=
  let centerpoint_coords :=
    if centerpoint_lat = PyVal.pynone then
      (PyVal.num (41.000150980792405 : ℚ), PyVal.num (34.99998540139929 : ℚ))
    else (centerpoint_lat, centerpoint_lon)
  let folium_map : FoliumMap :=
    { location := centerpoint_coords, tiles := tile_name, zoomStart := 7,
      controlScale := true, children := [] }
  let folium_map :=
    if fullscreen then
      { folium_map with
        children := folium_map.children ++ [MapChild.fullscreenCtl] }
    else folium_map
  { folium_map with children := folium_map.children ++ [MapChild.layerControl] }

/-- `GeoTools.location_markers`, GeoTools.py lines 204-272.  When
`add_to_existing_map` is true, `m = map_to_use` (Python default `None`, hence
the `Option`; markers added to `None` would raise, modelled as `none`).
Otherwise a new map is made via `prepare_folium_map` whose centerpoint is the
column mean of the latitude and longitude columns (lines 255-261).  Then one
`folium.Marker` is attached per row of `locations` — the loop at lines 264-270
has no condition on the row.  The `tooltip`, `tooltip_text` and `popup`
parameters are never read by the body. -/
def location_markers (locations : List LocationRow) (icon color : String)
    (tooltip : Bool) (tooltip_text : Option String) (popup : Bool)
    (antpath : Option String) (add_to_existing_map : Bool)
    (map_to_use : Option FoliumMap) : Option FoliumMap :=
  let m : Option FoliumMap :=
    if add_to_existing_map then map_to_use
    else
      let centerpoint_lat := toNumericMean (locations.map LocationRow.lat)
      let centerpoint_lon := toNumericMean (locations.map LocationRow.lon)
      some (prepare_folium_map centerpoint_lat centerpoint_lon
        "openstreetmap" true true false false)
  match m with
  | none => none
  | some m =>
    some { m with children := m.children ++ locations.map fun row =>
      MapChild.marker row.lat row.lon color icon antpath }

end GeoTools

/-- The number of markers attached to a folium map. -/
def countMarkers (m : FoliumMap) : Nat :=
  (m.children.filter fun c =>
    match c with | MapChild.marker _ _ _ _ _ => true | _ => false).length

namespace GeoPy

end GeoPy

/-- The fixed working projection both `get_pdok_data` implementations
reproject into: `to_crs({"proj": "merc"})`. -/
def mercProj : String := "merc"

/-- One row of a GeoDataFrame: its geometry (of an abstract type `G`, raw
coordinate data with no CRS tag of its own, as in geopandas) and the value of
the `geoid` column (`none` before that column is created). -/
structure GeoFrameRow (G : Type) where
  geometry : G
  geoid : Option String
deriving DecidableEq

/-- A GeoDataFrame: a frame-level CRS declaration (`none` when unset) and the
ordered rows, indexed 0,1,... by position. -/
structure GeoFrame (G : Type) where
  crs : Option String
  rows : List (GeoFrameRow G)
deriving DecidableEq

/-- `GeoDataFrame.to_crs(target)`: reprojects every geometry from the frame's
declared CRS into `target` and sets the frame CRS to `target`.  The coordinate
transformation itself is external (pyproj); it is passed in as `transform`,
taking the declared source CRS, the target, and a geometry. -/
def to_crs {G : Type} (transform : Option String → String → G → G)
    (frame : GeoFrame G) (target : String) : GeoFrame G :=
  { crs := some target,
    rows := frame.rows.map fun r =>
      { r with geometry := transform frame.crs target r.geometry } }

/-- The arguments the repository forwards to `folium.Choropleth`
(GeoTools.py lines 336-349 and GeoPy.py lines 168-180), recorded verbatim.
The source's `show` keyword is named `showFlag` here (`show` is a Lean
keyword). -/
structure Choropleth (γ δ : Type) where
  geo_data : γ
  data : δ
  columns : List String
  key_on : String
  fill_color : String
  nan_fill_color : String
  legend_name : String
  layerName : String
  highlight : Bool
  control : Bool
  overlay : Bool
  showFlag : Bool
deriving DecidableEq

namespace GeoTools

/-- `GeoTools.get_pdok_data`, GeoTools.py lines 28-56: read the dataset
(external, passed in as `read_file`), overwrite the frame CRS with the
caller-supplied `crs` (line 50 — the declared value is trusted, not inferred),
reproject everything into the Mercator working projection (line 51), then add
a `geoid` column holding the positional index as a string (line 54). -/
def get_pdok_data {G : Type} (read_file : String → GeoFrame G)
    (transform : Option String → String → G → G) (url : String)
    (crs : String) : GeoFrame G :=
  let geo_layer := read_file url
  let geo_layer := { geo_layer with crs := some crs }
  let geo_layer := to_crs transform geo_layer mercProj
  { geo_layer with
    rows := geo_layer.rows.enum.map fun p =>
      { p.2 with geoid := some (toString p.1) } }

/-- `GeoTools.choropleth_layer`, GeoTools.py lines 306-351: builds a
`folium.Choropleth` with `key_on="feature.id"` and forwards the remaining
arguments — except that line 348 passes the literal `show=True`, not the
`show` parameter from the signature (line 318). -/
def choropleth_layer {γ δ : Type} (geo_data : γ) (data : δ)
    (columns : List String) (fill_color nan_fill_color legend_name
    layerName : String) (highlight control overlay showFlag : Bool) :
    Choropleth γ δ :=
  { geo_data := geo_data, data := data, columns := columns,
    key_on := "feature.id", fill_color := fill_color,
    nan_fill_color := nan_fill_color, legend_name := legend_name,
    layerName := layerName, highlight := highlight, control := control,
    overlay := overlay, showFlag := true }

end GeoTools

namespace GeoPy

/-- `GeoPy.get_pdok_data`, GeoPy.py lines 33-61: line-for-line the same
procedure as the GeoTools version (read, declare CRS, `to_crs` to Mercator,
add positional `geoid` column). -/
def get_pdok_data {G : Type} (read_file : String → GeoFrame G)
    (transform : Option String → String → G → G) (url : String)
    (crs : String) : GeoFrame G :=
  let geo_layer := read_file url
  let geo_layer := { geo_layer with crs := some crs }
  let geo_layer := to_crs transform geo_layer mercProj
  { geo_layer with
    rows := geo_layer.rows.enum.map fun p =>
      { p.2 with geoid := some (toString p.1) } }

/-- `GeoPy.choropleth_layer`, GeoPy.py lines 141-182: same construction as the
GeoTools version, including the hard-coded `show=True` at line 179. -/
def choropleth_layer {γ δ : Type} (geo_data : γ) (data : δ)
    (columns : List String) (fill_color nan_fill_color legend_name
    layerName : String) (highlight control overlay showFlag : Bool) :
    Choropleth γ δ :=
  { geo_data := geo_data, data := data, columns := columns,
    key_on := "feature.id", fill_color := fill_color,
    nan_fill_color := nan_fill_color, legend_name := legend_name,
    layerName := layerName, highlight := highlight, control := control,
    overlay := overlay, showFlag := true }

/-- `GeoPy.prepare_folium_map`, GeoPy.py lines 95-138.  Same centerpoint test
as the GeoTools version; the tile defaults to `"cartodbpositron"` when
`tile_name` is `None` (lines 120-123); `Fullscreen` is attached
unconditionally (line 133) and the `LayerControl` line is commented out
(line 136), so no layer control is attached. -/
def prepare_folium_map (centerpoint_lat centerpoint_lon : PyVal)
    (tile_name : Option String) : FoliumMap :=
  let centerpoint_coords :=
    if centerpoint_lat = PyVal.pynone then
      (PyVal.num (41.000150980792405 : ℚ), PyVal.num (34.99998540139929 : ℚ))
    else (centerpoint_lat, centerpoint_lon)
  let tile := match tile_name with | none => "cartodbpositron" | some t => t
  let folium_map : FoliumMap :=
    { location := centerpoint_coords, tiles := tile, zoomStart := 7,
      controlScale := true, children := [] }
  { folium_map with children := folium_map.children ++ [MapChild.fullscreenCtl] }

end GeoPy

/-! ## Theorems -/

/-- The geocoding loop is equivalent to a per-row map: each appended entry is
determined by its own row alone. -/
theorem geocoder_nominatim_eq_map {α : Type} (geocode : String → Option α)
    (df : List AddressRecord) :
    GeoTools.geocoder_nominatim geocode df
      = df.map fun row => geocode (buildQuery row) := by
  induction df with
  | nil => rfl
  | cons row rest ih => simp [GeoTools.geocoder_nominatim, ih]

/-- Claim C1: for every input sequence of n address records,
`geocoder_nominatim` returns exactly n results; the result at each position j
is `geocode` applied to the query of the record at position j, so a failing
record yields `none` (the empty dict) at its own position and leaves every
other position unchanged, and — the function being total — no failure raises
or aborts the rest of the batch. -/
theorem C1_geocoder_batch_isolation {α : Type} (geocode : String → Option α)
    (df : List AddressRecord) :
    (GeoTools.geocoder_nominatim geocode df).length = df.length ∧
    ∀ j : Nat, (GeoTools.geocoder_nominatim geocode df)[j]?
        = (df[j]?).map fun row => geocode (buildQuery row) := by
  rw [geocoder_nominatim_eq_map]
  exact ⟨List.length_map _ _, fun j => List.getElem?_map _ _ _⟩

/-- Claim C8: the geocoding query is the comma-separated concatenation of the
name, street-plus-number (space-separated), postal code, city and country
fields; an empty field keeps its position, so the all-empty record yields
`", ,,,"` — adjacent separators, not an error (the builder is total). -/
theorem C8_query_format (row : AddressRecord) :
    buildQuery row = String.intercalate ","
      [row.objName, row.street ++ " " ++ row.number, row.postalCode,
        row.city, row.country] ∧
    buildQuery ⟨"", "", "", "", "", ""⟩ = ", ,,," := by
  constructor
  · simp [buildQuery, String.intercalate, String.intercalate.go,
      String.append_assoc]
  · rfl

/-- In the geocoding trace, every request whose response is successful is
immediately followed by a 1-second sleep. -/
theorem trace_sleep_after_success {α : Type} (geocode : String → Option α)
    (df : List AddressRecord) :
    ∀ i : Nat, ∀ q : String,
      (GeoTools.geocoderTrace geocode df)[i]?
          = some (GeoTools.GeoEvent.req q) →
      (geocode q).isSome →
      (GeoTools.geocoderTrace geocode df)[i + 1]?
          = some (GeoTools.GeoEvent.sleep 1) := by
  induction df with
  | nil => intro i q hreq _; simp [GeoTools.geocoderTrace] at hreq
  | cons row rest ih =>
    intro i q hreq hsome
    rcases h : geocode (buildQuery row) with _ | p
    · simp only [GeoTools.geocoderTrace, h] at hreq ⊢
      match i with
      | 0 =>
        simp only [List.getElem?_cons_zero, Option.some.injEq,
          GeoTools.GeoEvent.req.injEq] at hreq
        rw [← hreq, h] at hsome
        simp at hsome
      | Nat.succ n =>
        simp only [List.getElem?_cons_succ] at hreq ⊢
        exact ih n q hreq hsome
    · simp only [GeoTools.geocoderTrace, h] at hreq ⊢
      match i with
      | 0 => simp
      | 1 => simp at hreq
      | Nat.succ (Nat.succ n) =>
        simp only [List.getElem?_cons_succ] at hreq ⊢
        exact ih n q hreq hsome

/-- Claim C6: the trace of `geocoder_nominatim` contains exactly one request
per record (no retries), issued strictly sequentially, and every request with
a successful response is immediately followed by a `sleep 1` — the 1-second
delay enforced before the next request can be issued. -/
theorem C6_rate_limit_trace {α : Type} (geocode : String → Option α)
    (df : List AddressRecord) :
    ((GeoTools.geocoderTrace geocode df).filter GeoTools.GeoEvent.isReq).length
        = df.length ∧
    ∀ i : Nat, ∀ q : String,
      (GeoTools.geocoderTrace geocode df)[i]?
          = some (GeoTools.GeoEvent.req q) →
      (geocode q).isSome →
      (GeoTools.geocoderTrace geocode df)[i + 1]?
          = some (GeoTools.GeoEvent.sleep 1) := by
  refine ⟨?_, trace_sleep_after_success geocode df⟩
  induction df with
  | nil => rfl
  | cons row rest ih =>
    rcases h : geocode (buildQuery row) with _ | p <;>
      simp [GeoTools.geocoderTrace, h, GeoTools.GeoEvent.isReq, ih]

/-- Witness for C6 at a concrete input: one record and an always-successful
geocoder give a trace with one request, and the request at position 0 is
followed at position 1 by the 1-second sleep. -/
theorem C6_rate_limit_trace_witness :
    ((GeoTools.geocoderTrace (fun _ => (some 0 : Option Nat))
        [⟨"Rijksmuseum", "", "", "", "Amsterdam", "NL"⟩]).filter
        GeoTools.GeoEvent.isReq).length = 1 ∧
    (GeoTools.geocoderTrace (fun _ => (some 0 : Option Nat))
        [⟨"Rijksmuseum", "", "", "", "Amsterdam", "NL"⟩])[1]?
      = some (GeoTools.GeoEvent.sleep 1) :=
  ⟨(C6_rate_limit_trace (fun _ => (some 0 : Option Nat))
      [⟨"Rijksmuseum", "", "", "", "Amsterdam", "NL"⟩]).1,
   (C6_rate_limit_trace (fun _ => (some 0 : Option Nat))
      [⟨"Rijksmuseum", "", "", "", "Amsterdam", "NL"⟩]).2 0
      (buildQuery ⟨"Rijksmuseum", "", "", "", "Amsterdam", "NL"⟩) rfl rfl⟩

/-- Claim C2: for every input dataset, `get_pdok_data` returns a layer whose
declared CRS is the fixed Mercator working projection — whatever source CRS
was supplied — whose `geoid` column is `"0", "1", ..., str(n-1)` in load
order, and whose every geometry is the source geometry reprojected from the
supplied CRS into the working projection. -/
theorem C2_pdok_geoid_and_projection {G : Type}
    (read_file : String → GeoFrame G)
    (transform : Option String → String → G → G) (url crs : String) :
    (GeoTools.get_pdok_data read_file transform url crs).crs = some mercProj ∧
    (GeoTools.get_pdok_data read_file transform url crs).rows.map
        GeoFrameRow.geoid
      = (List.range (read_file url).rows.length).map
          (fun i => some (toString i)) ∧
    (GeoTools.get_pdok_data read_file transform url crs).rows.map
        GeoFrameRow.geometry
      = (read_file url).rows.map
          (fun r => transform (some crs) mercProj r.geometry) := by
  refine ⟨rfl, ?_, ?_⟩
  · have h : ∀ (l : List (GeoFrameRow G)),
        (l.enum.map fun p =>
            ({ p.2 with geoid := some (toString p.1) } : GeoFrameRow G)).map
            GeoFrameRow.geoid
          = (List.range l.length).map fun i => some (toString i) := by
      intro l
      rw [← List.enum_map_fst l, List.map_map, List.map_map]
      simp [Function.comp_def]
    simp only [GeoTools.get_pdok_data, to_crs, h, List.length_map]
  · have h : ∀ (l : List (GeoFrameRow G)),
        (l.enum.map fun p =>
            ({ p.2 with geoid := some (toString p.1) } : GeoFrameRow G)).map
            GeoFrameRow.geometry
          = l.map GeoFrameRow.geometry := by
      intro l
      conv_rhs => rw [← List.enum_map_snd l]
      rw [List.map_map, List.map_map]
      simp [Function.comp_def]
    simp only [GeoTools.get_pdok_data, to_crs, h, List.map_map]
    simp [Function.comp_def]

/-- Claim C10: the two implementations agree — `GeoPy.get_pdok_data` and
`GeoTools.get_pdok_data` compute the same layer for every input, and
`GeoPy.choropleth_layer` and `GeoTools.choropleth_layer` compute the same
layer for the same arguments. -/
theorem C10_geopy_geotools_agree {G γ δ : Type}
    (read_file : String → GeoFrame G)
    (transform : Option String → String → G → G) (url crs : String)
    (geo_data : γ) (data : δ) (columns : List String)
    (fill_color nan_fill_color legend_name layerName : String)
    (highlight control overlay showFlag : Bool) :
    GeoPy.get_pdok_data read_file transform url crs
      = GeoTools.get_pdok_data read_file transform url crs ∧
    GeoPy.choropleth_layer geo_data data columns fill_color nan_fill_color
        legend_name layerName highlight control overlay showFlag
      = GeoTools.choropleth_layer geo_data data columns fill_color
          nan_fill_color legend_name layerName highlight control overlay
          showFlag :=
  ⟨rfl, rfl⟩

/-- Claim C9: in both `prepare_folium_map` implementations the centerpoint
decision reads only the latitude argument — `centerpoint_lat = None` selects
the fixed default pair no matter what longitude is supplied, and any non-None
latitude (NaN included) selects `(centerpoint_lat, centerpoint_lon)` even when
the longitude is `None`. -/
theorem C9_centerpoint_depends_on_lat_only :
    (∀ lon tile lc fs mm om,
      (GeoTools.prepare_folium_map PyVal.pynone lon tile lc fs mm om).location
        = (PyVal.num (41.000150980792405 : ℚ),
           PyVal.num (34.99998540139929 : ℚ))) ∧
    (∀ lat lon tile lc fs mm om, lat ≠ PyVal.pynone →
      (GeoTools.prepare_folium_map lat lon tile lc fs mm om).location
        = (lat, lon)) ∧
    (∀ lon tile,
      (GeoPy.prepare_folium_map PyVal.pynone lon tile).location
        = (PyVal.num (41.000150980792405 : ℚ),
           PyVal.num (34.99998540139929 : ℚ))) ∧
    (∀ lat lon tile, lat ≠ PyVal.pynone →
      (GeoPy.prepare_folium_map lat lon tile).location = (lat, lon)) := by
  refine ⟨?_, ?_, ?_, ?_⟩
  · intro lon tile lc fs mm om
    cases fs <;> simp [GeoTools.prepare_folium_map]
  · intro lat lon tile lc fs mm om hlat
    cases fs <;> simp [GeoTools.prepare_folium_map, hlat]
  · intro lon tile
    simp [GeoPy.prepare_folium_map]
  · intro lat lon tile hlat
    simp [GeoPy.prepare_folium_map, hlat]

/-- Witness for C9 at a concrete input: latitude NaN is not `None`, so both
implementations center at `(NaN, None)` when the longitude is `None` — the
non-default branch taken even with a `None` longitude. -/
theorem C9_centerpoint_witness :
    (GeoTools.prepare_folium_map PyVal.nan PyVal.pynone "openstreetmap"
        true true false false).location = (PyVal.nan, PyVal.pynone) ∧
    (GeoPy.prepare_folium_map PyVal.nan PyVal.pynone none).location
      = (PyVal.nan, PyVal.pynone) :=
  ⟨C9_centerpoint_depends_on_lat_only.2.1 PyVal.nan PyVal.pynone
      "openstreetmap" true true false false (by decide),
   C9_centerpoint_depends_on_lat_only.2.2.2 PyVal.nan PyVal.pynone none
      (by decide)⟩

/-- Claim C4 fails on the code — evaluation at the failing input: with
`highlight=False, control=False, overlay=True, show=False` supplied, both
`choropleth_layer` implementations forward the first three flags but return a
layer whose initial-visibility flag is `true`, because the source passes the
literal `show=True` (GeoTools.py line 348, GeoPy.py line 179) instead of the
`show` parameter.  A caller passing `show=False` does not obtain an initially
hidden layer. -/
theorem C4_show_flag_hardcoded :
    ((GeoTools.choropleth_layer (0 : Nat) (0 : Nat) ["geoid", "value"] "YlGn"
        "gray" "legend" "layer" false false true false).highlight,
      (GeoTools.choropleth_layer (0 : Nat) (0 : Nat) ["geoid", "value"] "YlGn"
        "gray" "legend" "layer" false false true false).control,
      (GeoTools.choropleth_layer (0 : Nat) (0 : Nat) ["geoid", "value"] "YlGn"
        "gray" "legend" "layer" false false true false).overlay,
      (GeoTools.choropleth_layer (0 : Nat) (0 : Nat) ["geoid", "value"] "YlGn"
        "gray" "legend" "layer" false false true false).showFlag)
      = (false, false, true, true) ∧
    (GeoPy.choropleth_layer (0 : Nat) (0 : Nat) ["geoid", "value"] "YlGn"
        "gray" "legend" "layer" false false true false).showFlag = true :=
  ⟨rfl, rfl⟩

/-- Claim C5 fails on the code — evaluation at the failing input: the map
composition of UsageExamples.py (create a map with `prepare_folium_map`, then
attach a marker through `location_markers` with `add_to_existing_map=True`)
produces the child list `[Fullscreen, LayerControl, Marker]`: the layer
control sits at index 1, before the marker at index 2, because
`prepare_folium_map` attaches `folium.LayerControl` during map creation
(GeoTools.py line 200), necessarily before any layer can be attached. -/
theorem C5_layercontrol_attached_before_layers :
    (GeoTools.location_markers [⟨PyVal.num 52, PyVal.num 4⟩] "map-pin"
        "orange" false none false none true
        (some (GeoTools.prepare_folium_map PyVal.pynone PyVal.pynone
          "openstreetmap" true true false false))).map FoliumMap.children
      = some [MapChild.fullscreenCtl, MapChild.layerControl,
          MapChild.marker (PyVal.num 52) (PyVal.num 4) "orange" "map-pin"
            none] := by
  rfl

/-- Counterexample to claim C3: a single `Unresolved` record (a row of NaNs,
as produced by `geocoder_nominatim` for a failed lookup) fed to
`location_markers` yields a map with one marker, not the zero markers the
claim requires for an all-Unresolved input. -/
theorem C3_counterexample_unresolved_yields_marker :
    (GeoTools.location_markers [⟨PyVal.nan, PyVal.nan⟩] "map-pin" "orange"
        false none false none false none).map countMarkers ≠ some 0 := by
  decide

/-- Claim C3 as amended: `location_markers` creates exactly one marker per
input row, whether the row is Resolved or Unresolved — for every input of n
rows the resulting layer carries n markers (an Unresolved row produces a
marker with NaN coordinates rather than being skipped). -/
theorem C3_one_marker_per_row (locations : List LocationRow)
    (icon color : String) (tooltip : Bool) (tooltip_text : Option String)
    (popup : Bool) (antpath : Option String) :
    (GeoTools.location_markers locations icon color tooltip tooltip_text popup
        antpath false none).map countMarkers = some locations.length := by
  simp only [GeoTools.location_markers, GeoTools.prepare_folium_map,
    Bool.false_eq_true, if_false, if_true, Option.map_some]
  simp [countMarkers, List.filter_append, List.filter_map, Function.comp_def]

/-- Claim C7: when `location_markers` is called without an existing map, the
created map's centerpoint is the arithmetic mean of the numeric (resolved)
latitudes paired with the arithmetic mean of the numeric (resolved)
longitudes; NaN rows — the Unresolved results — are skipped by the pandas mean
and contribute nothing.  Hypotheses: at least one resolved latitude and one
resolved longitude exist (otherwise the pandas mean is NaN). -/
theorem C7_center_is_mean_of_resolved (locations : List LocationRow)
    (icon color : String) (tooltip : Bool) (tooltip_text : Option String)
    (popup : Bool) (antpath : Option String)
    (hlat : numericVals (locations.map LocationRow.lat) ≠ [])
    (hlon : numericVals (locations.map LocationRow.lon) ≠ []) :
    (GeoTools.location_markers locations icon color tooltip tooltip_text popup
        antpath false none).map FoliumMap.location
      = some
          (PyVal.num ((numericVals (locations.map LocationRow.lat)).sum
              / ((numericVals (locations.map LocationRow.lat)).length : ℚ)),
           PyVal.num ((numericVals (locations.map LocationRow.lon)).sum
              / ((numericVals (locations.map LocationRow.lon)).length : ℚ)))
    := by
  have hl : (numericVals (locations.map LocationRow.lat)).length ≠ 0 := by
    simpa [List.length_eq_zero] using hlat
  have hn : (numericVals (locations.map LocationRow.lon)).length ≠ 0 := by
    simpa [List.length_eq_zero] using hlon
  simp only [GeoTools.location_markers, toNumericMean,
    Bool.false_eq_true, if_false, hl, hn, if_true, Option.map_some]
  simp [GeoTools.prepare_folium_map]

/-- Witness for C7 at a concrete input: two resolved rows (10,20) and (20,40)
and one Unresolved NaN row center the created map at (15, 30) — the mean of
the two resolved coordinates, unmoved by the Unresolved row. -/
theorem C7_center_witness :
    (GeoTools.location_markers [⟨PyVal.num 10, PyVal.num 20⟩,
        ⟨PyVal.nan, PyVal.nan⟩, ⟨PyVal.num 20, PyVal.num 40⟩] "map-pin"
        "orange" false none false none false none).map FoliumMap.location
      = some (PyVal.num 15, PyVal.num 30) :=
  (C7_center_is_mean_of_resolved [⟨PyVal.num 10, PyVal.num 20⟩,
      ⟨PyVal.nan, PyVal.nan⟩, ⟨PyVal.num 20, PyVal.num 40⟩] "map-pin"
      "orange" false none false none (by decide) (by decide)).trans
    (by norm_num [numericVals, List.filterMap])
